import Mathlib

/-!
Shallow embedding of the `simple_sql_ai_agent` repository: the safety-gated
SQL executor (`src/sql_agent/agents/sql_executor.py`), the shared `Context`
record (`src/sql_agent/agents/mcp.py`), the memory manager
(`src/sql_agent/agents/memory_manager.py`) and the pipeline state machine
(`src/sql_agent/flow.py`).  External collaborators (the language model, the
RAG retriever, the database driver, the response formatter and the wall
clock) are modelled as oracle functions supplied as parameters; everything
the repository itself computes is translated directly from the Python
source.  Python strings are modelled as Lean `String`s, and the Python
string primitives `lower` / `strip` / `split()` / `startswith` are modelled
by executable functions over the character list of the string (the queries
and identifiers of interest are ASCII, where these agree with Python).
-/

namespace SqlAgent

/-! ## Python string primitives -/

/-- ASCII lower-casing of one character, as Python `str.lower` acts on
ASCII text. -/
def asciiLower (c : Char) : Char :=
  if c.toNat ≥ 65 ∧ c.toNat ≤ 90 then Char.ofNat (c.toNat + 32) else c

/-- Python `str.lower` (ASCII fragment). -/
def pyLower (s : String) : String := ⟨s.data.map asciiLower⟩

/-- The whitespace characters recognised by Python `str.strip()` and
`str.split()` (ASCII fragment). -/
def isSpaceChar (c : Char) : Bool :=
  c = ' ' ∨ c = '\t' ∨ c = '\n' ∨ c = '\r'

/-- Strip leading and trailing whitespace from a character list. -/
def pyStripL (cs : List Char) : List Char :=
  ((cs.dropWhile isSpaceChar).reverse.dropWhile isSpaceChar).reverse

/-- Python `str.strip()` with no argument. -/
def pyStrip (s : String) : String := ⟨pyStripL s.data⟩

/-- Whether the first list is a prefix of the second, decidably. -/
def listStartsWith : List Char → List Char → Bool
  | [], _ => true
  | _ :: _, [] => false
  | p :: ps, c :: cs => p = c && listStartsWith ps cs

/-- Python `s.startswith(pre)`. -/
def pyStartsWith (s pre : String) : Bool := listStartsWith pre.data s.data

/-- Helper for `pySplit`: cut the character list at every whitespace
character, keeping the pieces (possibly empty) in order. -/
def splitWsAux : List Char → List Char → List (List Char)
  | [], acc => [acc.reverse]
  | c :: cs, acc =>
    if isSpaceChar c then acc.reverse :: splitWsAux cs []
    else splitWsAux cs (c :: acc)

/-- Python `str.split()` with no argument: split on runs of whitespace,
discarding empty pieces. -/
def pySplit (s : String) : List String :=
  ((splitWsAux s.data []).filter (fun w => w ≠ [])).map (fun w => String.mk w)

/-! ## Safety-gated executor: `SQLExecutor.validate_sql`

Python source (`sql_executor.py`):
`sql_lower = sql_query.lower()`; for each keyword in the fixed denylist,
reject if `keyword in sql_lower.split()`; then reject if
`not sql_lower.strip().startswith("select")`; otherwise accept. -/

/-- The `dangerous_keywords` list of `SQLExecutor.validate_sql`, verbatim. -/
def dangerous_keywords : List String :=
  ["drop", "delete", "truncate", "update", "insert", "alter", "create",
   "grant", "revoke", "commit", "rollback", "begin", "end", "vacuum"]

/-- `SQLExecutor.validate_sql`: returns `true` iff no whitespace-delimited
token of the lower-cased query is a denylisted keyword and the trimmed
lower-cased query starts with `"select"`. -/
def validate_sql (sql_query : String) : Bool :=
  let sql_lower := pyLower sql_query
  if dangerous_keywords.any (fun keyword => (pySplit sql_lower).contains keyword) then
    false
  else if !(pyStartsWith (pyStrip sql_lower) "select") then
    false
  else
    true

/-! ## Safety-gated executor: `SQLExecutor.execute_sql` -/

/-- A result row, as the dictionary produced by `df.to_dict(orient="records")`:
a mapping from column name to a (stringified) cell value. -/
abbrev Row := List (String × String)

/-- The behaviour of the external database driver on one query: either a
successful fetch of rows with their column names, a `SQLAlchemyError`, or
any other exception.  The driver is an external collaborator, so it is an
oracle parameter of the embedding. -/
inductive DBOutcome where
  | rows (columns : List String) (data : List Row)
  | sqlError (msg : String)
  | otherError (msg : String)
deriving Repr, DecidableEq

/-- The result dictionary returned by `SQLExecutor.execute_sql`.  The Python
success dictionaries carry no `"error"` key, which `results.get("error", None)`
reads as `None`; this is modelled by `error = none`. -/
structure ExecResult where
  success : Bool
  error : Option String
  data : Option (List Row)
  columns : Option (List String)
  row_count : Nat
deriving Repr, DecidableEq

/-- The failure dictionary returned when validation rejects the query. -/
def validationFailureResult : ExecResult :=
  { success := false
  , error := some "SQL query failed validation"
  , data := none
  , columns := none
  , row_count := 0 }

/-- `SQLExecutor.execute_sql`, instrumented with whether a database session
was ever opened and whether it was closed.  The Python code opens the
session only after validation succeeds, and the `finally` block closes it
on every exit path of the `try`. -/
def execute_sql_traced (db : String → DBOutcome) (sql_query : String) :
    ExecResult × Bool × Bool :=
  if !(validate_sql sql_query) then
    (validationFailureResult, false, false)
  else
    match db sql_query with
    | .rows cols data =>
        if data.isEmpty then
          ({ success := true, error := none, data := some [],
             columns := some cols, row_count := 0 }, true, true)
        else
          ({ success := true, error := none, data := some data,
             columns := some cols, row_count := data.length }, true, true)
    | .sqlError m =>
        ({ success := false, error := some ("Database error: " ++ m),
           data := none, columns := none, row_count := 0 }, true, true)
    | .otherError m =>
        ({ success := false, error := some ("Unexpected error: " ++ m),
           data := none, columns := none, row_count := 0 }, true, true)

/-- `SQLExecutor.execute_sql`: just the returned result dictionary. -/
def execute_sql (db : String → DBOutcome) (sql_query : String) : ExecResult :=
  (execute_sql_traced db sql_query).1

/-! ## The shared `Context` record (`src/sql_agent/agents/mcp.py`) -/

/-- One entry of `Context.errors`, as appended by `Context.add_error`:
`{"agent": ..., "message": ..., "type": ...}`. -/
structure ErrorEntry where
  agent : String
  message : String
  type : String
deriving Repr, DecidableEq

/-- A value stored in `Context.metadata` (the pipeline only ever stores a
boolean flag and a history length). -/
inductive MetaVal where
  | b (v : Bool)
  | n (v : Nat)
deriving Repr, DecidableEq

/-- The `results_summary` sub-dictionary of a persisted interaction. -/
structure ResultsSummary where
  success : Bool
  row_count : Nat
  error : Option String
deriving Repr, DecidableEq

/-- One persisted interaction record (`MemoryManager.add_interaction`). -/
structure Interaction where
  timestamp : String
  question : String
  sql_query : String
  results_summary : ResultsSummary
  response : String
deriving Repr, DecidableEq

/-- A per-user memory document (`MemoryManager.create_empty_memory` gives
the empty one).  Preferences are unused by the pipeline. -/
structure UserMemory where
  conversations : List Interaction
  preferences : List (String × String)
  last_updated : String
deriving Repr, DecidableEq

/-- The pydantic `Context` model, with its field defaults.  The Python
`query_results` field is a free-form dictionary that is either the empty
default `{}` or the full result dictionary written by the execute stage;
`none` models the empty default. -/
structure Context where
  user_id : String := "anonymous"
  question : String := ""
  sql_query : String := ""
  is_query_validated : Bool := false
  query_results : Option ExecResult := none
  response : String := ""
  conversation_history : List Interaction := []
  errors : List ErrorEntry := []
  metadata : List (String × MetaVal) := []
deriving Repr, DecidableEq

/-- `Context.add_error`: append one error entry (default type "general"). -/
def Context.add_error (c : Context) (agent_name error_message : String)
    (error_type : String := "general") : Context :=
  { c with errors := c.errors ++ [⟨agent_name, error_message, error_type⟩] }

/-- `Context.has_errors`: `len(self.errors) > 0`. -/
def Context.has_errors (c : Context) : Bool :=
  c.errors.length > 0

/-- `Context.get_last_error`: the most recent error, if any. -/
def Context.get_last_error (c : Context) : Option ErrorEntry :=
  c.errors.getLast?

/-- Assignment into an insertion-ordered string-keyed dictionary, as Python
`d[k] = v`: replace in place when the key exists, append otherwise. -/
def setKey {α : Type} (m : List (String × α)) (k : String) (v : α) :
    List (String × α) :=
  if m.any (fun p => p.1 = k) then
    m.map (fun p => if p.1 = k then (k, v) else p)
  else
    m ++ [(k, v)]

/-- `Context.update_metadata`: `self.metadata[key] = value`. -/
def Context.update_metadata (c : Context) (key : String) (value : MetaVal) : Context :=
  { c with metadata := setKey c.metadata key value }

/-! ## Memory manager (`src/sql_agent/agents/memory_manager.py`)

The filesystem under the memory directory is modelled as an
insertion-ordered mapping from file path to parsed document; reads and
writes of that mapping are total (claims about read failures enter through
the oracle of the pipeline stage that performs them). -/

/-- Python `s.endswith(suf)`. -/
def pyEndsWith (s suf : String) : Bool :=
  listStartsWith suf.data.reverse s.data.reverse

/-- POSIX `os.path.join(a, b)`: an absolute second component discards the
first; otherwise the components are glued with a single separator. -/
def ospath_join (a b : String) : String :=
  if pyStartsWith b "/" then b
  else if a = "" then b
  else if pyEndsWith a "/" then a ++ b
  else a ++ "/" ++ b

/-- Split a character list at every `/`, keeping the (possibly empty)
pieces in order; the components of a path. -/
def splitSlash : List Char → List (List Char)
  | [] => [[]]
  | c :: cs =>
    if c = '/' then [] :: splitSlash cs
    else
      match splitSlash cs with
      | [] => [[c]]
      | h :: t => (c :: h) :: t

/-- One step of path resolution: empty and `.` components are dropped,
`..` cancels the previously kept component — or yields `none` when the
path has climbed above its starting directory — and any other component is
kept. -/
def resolveStep : Option (List (List Char)) → List Char → Option (List (List Char))
  | none, _ => none
  | some st, comp =>
      if comp = [] ∨ comp = ['.'] then some st
      else if comp = ['.', '.'] then
        match st with
        | [] => none
        | _ :: _ => some st.dropLast
      else some (st ++ [comp])

/-- The resolved components of a relative path: `none` when the path
escapes above its starting directory. -/
def resolvePath (p : String) : Option (List (List Char)) :=
  (splitSlash p.data).foldl resolveStep (some [])

/-- Formalisation of the claimed property that a path lies inside a given
directory (a single-component relative directory name such as the default
`"memory"`): the path is relative and its resolved components are the
directory followed by at least one further component. -/
def path_inside_dir (dir path : String) : Bool :=
  !(pyStartsWith path "/") &&
  (match resolvePath path with
   | some (c :: _ :: _) => c = dir.data
   | _ => false)

namespace MemoryManager

/-- `MemoryManager.get_user_memory_path`:
`os.path.join(self.memory_dir, f"{user_id}.json")`. -/
def get_user_memory_path (memory_dir user_id : String) : String :=
  ospath_join memory_dir (user_id ++ ".json")

/-- The filesystem content under the memory directory. -/
abbrev Store := List (String × UserMemory)

/-- `MemoryManager.create_empty_memory` (the timestamp is the oracle clock). -/
def create_empty_memory (now : String) : UserMemory :=
  { conversations := [], preferences := [], last_updated := now }

/-- `MemoryManager.load_memory`: read the per-user document, falling back
to an empty one when the file does not exist (an unreadable file also falls
back to the empty document in the source). -/
def load_memory (now : String) (store : Store) (memory_dir user_id : String) :
    UserMemory :=
  match store.lookup (get_user_memory_path memory_dir user_id) with
  | some m => m
  | none => create_empty_memory now

/-- `MemoryManager.save_memory`: overwrite the per-user document (a write
failure is swallowed inside the source function, so the function never
raises). -/
def save_memory (store : Store) (memory_dir user_id : String)
    (memory : UserMemory) : Store :=
  setKey store (get_user_memory_path memory_dir user_id) memory

/-- `MemoryManager.add_interaction`: load the document, build the record —
where `results["success"]` raises `KeyError` when `results` is the empty
default dictionary of a run that never executed a query — append it and
store the document.  The `Except.error` payload is Python `str(e)` of the
`KeyError`, which is the quoted key. -/
def add_interaction (now : String) (store : Store)
    (memory_dir user_id question sql_query : String)
    (results : Option ExecResult) (response : String) : Except String Store :=
  let memory := load_memory now store memory_dir user_id
  match results with
  | none => .error "\x27success\x27"
  | some r =>
      let interaction : Interaction :=
        { timestamp := now
        , question := question
        , sql_query := sql_query
        , results_summary :=
            { success := r.success, row_count := r.row_count, error := r.error }
        , response := response }
      let memory2 := { memory with
        conversations := memory.conversations ++ [interaction]
        , last_updated := now }
      .ok (save_memory store memory_dir user_id memory2)

/-- `MemoryManager.get_recent_interactions`: the last `limit` records of
the per-user document, in chronological order. -/
def get_recent_interactions (now : String) (store : Store)
    (memory_dir user_id : String) (limit : Nat := 5) : List Interaction :=
  let memory := load_memory now store memory_dir user_id
  if memory.conversations ≠ [] then
    memory.conversations.drop (memory.conversations.length - limit)
  else []

end MemoryManager

/-! ## The SQL generator (`src/sql_agent/agents/sql_generator.py`) -/

/-- The cleanup `SQLGenerator.generate_sql` applies to the raw language
model output: strip, peel a leading markdown fence opener (drop 6
characters) and a trailing fence (drop the last 3 characters), strip
again. -/
def clean_sql_output (s : String) : String :=
  let s1 := pyStrip s
  let s2 := if pyStartsWith s1 "```sql" then ⟨s1.data.drop 6⟩ else s1
  let s3 := if pyEndsWith s2 "```" then ⟨s2.data.take (s2.data.length - 3)⟩ else s2
  pyStrip s3

/-! ## The pipeline state machine (`src/sql_agent/flow.py`)

The stages are the node methods of `SQLAgentGraph`; the conditional edges
registered with the graph library branch on `check_for_errors`.  External
collaborators are gathered in one oracle record. -/

/-- The external collaborators of one pipeline run:
  * `history_read_error`: `some msg` when the history read performed by the
    `load_context` stage raises (file I/O failure), `none` when it
    succeeds and the store contents are returned;
  * `llm_generate`: the raw output of the generation chain (RAG retrieval
    plus language model) on a question, or the raised exception;
  * `db`: the database driver behaviour used by the safety-gated executor;
  * `formatter`: the `ResponseFormatter.format_response` language-model
    call, which may raise;
  * `now`: the wall clock used for timestamps. -/
structure Collaborators where
  history_read_error : Option String
  llm_generate : String → Except String String
  db : String → DBOutcome
  formatter : String → String → Option ExecResult → Except String String
  now : String

/-- `SQLGenerator.generate_sql`: run the chain and clean its output; a
raised exception propagates to the caller. -/
def SQLGenerator.generate_sql (o : Collaborators) (question : String) :
    Except String String :=
  match o.llm_generate question with
  | .error e => .error e
  | .ok raw => .ok (clean_sql_output raw)

namespace SQLAgentGraph

open MemoryManager in
/-- `SQLAgentGraph.load_context`: populate `conversation_history` and the
two metadata keys from the memory manager; on a raised exception, append an
error tagged `load_context` and continue. -/
def load_context (o : Collaborators) (memory_dir : String)
    (c : Context) (store : MemoryManager.Store) : Context :=
  match o.history_read_error with
  | some e => c.add_error "load_context" ("Error loading context: " ++ e)
  | none =>
      let recent := get_recent_interactions o.now store memory_dir c.user_id
      let c1 := { c with conversation_history := recent }
      let c2 := c1.update_metadata "context_loaded" (.b true)
      c2.update_metadata "history_length" (.n recent.length)

/-- `SQLAgentGraph.generate_sql`: write the generated query into
`sql_query`; on a raised exception, append an error tagged `generate_sql`
with no query set. -/
def generate_sql (o : Collaborators) (c : Context) : Context :=
  match SQLGenerator.generate_sql o c.question with
  | .ok q => { c with sql_query := q }
  | .error e => c.add_error "generate_sql" ("Error generating SQL: " ++ e)

/-- `SQLAgentGraph.execute_sql`: run the safety-gated executor, store its
result dictionary and its success flag; on an unsuccessful result, append
an error tagged `execute_sql` of type `database_error` citing the stored
error string. -/
def execute_sql (o : Collaborators) (c : Context) : Context :=
  let results := SqlAgent.execute_sql o.db c.sql_query
  let c1 := { c with query_results := some results
                   , is_query_validated := results.success }
  if results.success then c1
  else
    c1.add_error "execute_sql"
      ("Query execution failed: " ++ results.error.getD "")
      "database_error"

/-- `SQLAgentGraph.format_response`: with errors present, produce the
templated apology citing the last error message (no external call); else
call the response formatter, falling back to a fixed apology and an error
tagged `format_response` when that call raises. -/
def format_response (o : Collaborators) (c : Context) : Context :=
  if c.has_errors then
    let error_msg :=
      match c.get_last_error with
      | some e => e.message
      | none => "An unknown error occurred"
    { c with response := "I\x27m sorry, but I encountered an error: " ++ error_msg }
  else
    match o.formatter c.question c.sql_query c.query_results with
    | .ok r => { c with response := r }
    | .error e =>
        let c1 := c.add_error "format_response" ("Error formatting response: " ++ e)
        { c1 with response :=
            "I\x27m sorry, but I encountered an error while formatting the response." }

/-- `SQLAgentGraph.save_memory`: persist the interaction via the memory
manager; on a raised exception, append an error tagged `save_memory` and
leave the store as it was. -/
def save_memory (o : Collaborators) (memory_dir : String)
    (c : Context) (store : MemoryManager.Store) : Context × MemoryManager.Store :=
  match MemoryManager.add_interaction o.now store memory_dir c.user_id
      c.question c.sql_query c.query_results c.response with
  | .ok store2 => (c, store2)
  | .error e => (c.add_error "save_memory" ("Error saving memory: " ++ e), store)

/-- `SQLAgentGraph.check_for_errors`: the label consumed by the
conditional-edge tables. -/
def check_for_errors (c : Context) : String :=
  if c.has_errors then "error" else "success"

end SQLAgentGraph

/-- The named nodes of the graph built by `SQLAgentGraph.build_graph`. -/
inductive Node where
  | load_context
  | generate_sql
  | execute_sql
  | format_response
  | save_memory
deriving Repr, DecidableEq

/-- Position of a node in the pipeline order (used to state acyclicity). -/
def Node.rank : Node → Nat
  | .load_context => 0
  | .generate_sql => 1
  | .execute_sql => 2
  | .format_response => 3
  | .save_memory => 4

/-- One transition of the graph of `SQLAgentGraph.build_graph`: execute the
node on the context and store, then follow its outgoing edge —
unconditional from `load_context` and `format_response`, conditional on
`check_for_errors` out of `generate_sql` (label `"error"` jumps to
`format_response`, label `"success"` proceeds to `execute_sql`) and out of
`execute_sql` (both labels lead to `format_response`), terminal (`none`)
after `save_memory`. -/
def step (o : Collaborators) (memory_dir : String) (n : Node)
    (c : Context) (s : MemoryManager.Store) :
    Context × MemoryManager.Store × Option Node :=
  match n with
  | .load_context =>
      (SQLAgentGraph.load_context o memory_dir c s, s, some .generate_sql)
  | .generate_sql =>
      let c2 := SQLAgentGraph.generate_sql o c
      (c2, s, some (if SQLAgentGraph.check_for_errors c2 = "error"
                    then Node.format_response else Node.execute_sql))
  | .execute_sql =>
      let c2 := SQLAgentGraph.execute_sql o c
      (c2, s, some (if SQLAgentGraph.check_for_errors c2 = "error"
                    then Node.format_response else Node.format_response))
  | .format_response =>
      (SQLAgentGraph.format_response o c, s, some .save_memory)
  | .save_memory =>
      let p := SQLAgentGraph.save_memory o memory_dir c s
      (p.1, p.2, none)

/-- Run the graph for at most `fuel` transitions, recording the visited
nodes in order.  Every edge strictly increases `Node.rank`, so a fuel of 5
always reaches the terminal state. -/
def runAux (o : Collaborators) (memory_dir : String) :
    Nat → Node → Context → MemoryManager.Store →
    Context × MemoryManager.Store × List Node
  | 0, _, c, s => (c, s, [])
  | fuel + 1, n, c, s =>
    match step o memory_dir n c s with
    | (c2, s2, none) => (c2, s2, [n])
    | (c2, s2, some n2) =>
        let r := runAux o memory_dir fuel n2 c2 s2
        (r.1, r.2.1, n :: r.2.2)

/-- A full run of the compiled graph from the entry point `load_context`. -/
def runGraph (o : Collaborators) (memory_dir : String)
    (c0 : Context) (s0 : MemoryManager.Store) :
    Context × MemoryManager.Store × List Node :=
  runAux o memory_dir 5 .load_context c0 s0

/-- The snapshot returned by `SQLAgentGraph.process_question`. -/
structure ProcessResult where
  question : String
  sql_query : String
  response : String
  success : Bool
  errors : List ErrorEntry
deriving Repr, DecidableEq

/-- `SQLAgentGraph.process_question`: build a fresh `Context` from the user
id and question, run it through the graph, and return the snapshot
(`success = not has_errors`).  The memory directory is the constructor
default `"memory"`. -/
def process_question (o : Collaborators) (user_id question : String)
    (s0 : MemoryManager.Store) : ProcessResult × MemoryManager.Store :=
  let c0 : Context := { user_id := user_id, question := question }
  let r := runGraph o "memory" c0 s0
  ({ question := question
   , sql_query := r.1.sql_query
   , response := r.1.response
   , success := !(r.1.has_errors)
   , errors := r.1.errors }, r.2.1)

/-! ## Shared material for the pipeline theorems -/

/-- A run in which every collaborator succeeds: the history read works, the
model emits a fixed query, the database returns one row, the formatter
answers. -/
def oracleAllOk : Collaborators :=
  { history_read_error := none
  , llm_generate := fun _ => .ok "SELECT a FROM t"
  , db := fun _ => .rows ["a"] [[("a", "1")]]
  , formatter := fun _ _ _ => .ok "fine"
  , now := "t0" }

/-- A run in which only the generation chain raises. -/
def oracleGenFail : Collaborators :=
  { oracleAllOk with llm_generate := fun _ => .error "LLM unavailable" }

/-- A run in which only the history read of `load_context` raises. -/
def oracleLoadFail : Collaborators :=
  { oracleAllOk with history_read_error := some "disk error" }

/-- The context on which the `format_response` stage runs: the entry
context after `load_context`, `generate_sql` and — only when the
conditional edge out of `generate_sql` chose the `"success"` label — the
`execute_sql` stage. -/
def contextAtFormat (o : Collaborators) (memory_dir : String)
    (c0 : Context) (s0 : MemoryManager.Store) : Context :=
  let c1 := SQLAgentGraph.load_context o memory_dir c0 s0
  let c2 := SQLAgentGraph.generate_sql o c1
  if SQLAgentGraph.check_for_errors c2 = "error" then c2
  else SQLAgentGraph.execute_sql o c2


/-! ## Theorems about the safety gate (claims C2, C3, C5, C6) -/

/-- C2.  Allowlist-prefix rejection: for every query string `q`,
`validate_sql q = false` whenever the lower-cased, trimmed `q` does not
start with the literal prefix `"select"`, independently of whether `q`
contains any denylisted keyword. -/
theorem validate_sql_rejects_non_select (q : String)
    (h : pyStartsWith (pyStrip (pyLower q)) "select" = false) :
    validate_sql q = false := by
  unfold validate_sql
  simp only [h]
  by_cases hd :
      dangerous_keywords.any (fun keyword => (pySplit (pyLower q)).contains keyword) <;>
    simp [hd]

/-- Witness for C2 at the concrete query `"update t"`. -/
theorem validate_sql_rejects_non_select_witness :
    pyStartsWith (pyStrip (pyLower "update t")) "select" = false ∧
    validate_sql "update t" = false :=
  ⟨by decide, validate_sql_rejects_non_select "update t" (by decide)⟩

/-- C3.  Denylist rejection: for every query string `q` that contains a
denylisted token as a whole (whitespace-delimited) word of its lower-cased
form, `validate_sql q = false`, even when `q` starts with `select`. -/
theorem validate_sql_rejects_denylisted (q : String)
    (h : ∃ keyword ∈ dangerous_keywords, keyword ∈ pySplit (pyLower q)) :
    validate_sql q = false := by
  obtain ⟨k, hk, hmem⟩ := h
  have hany :
      dangerous_keywords.any (fun keyword => (pySplit (pyLower q)).contains keyword) = true := by
    rw [List.any_eq_true]
    exact ⟨k, hk, List.elem_iff.mpr hmem⟩
  simp only [validate_sql]
  rw [hany]
  simp

/-- Witness for C3 at the concrete query `"select 1; drop table x"`,
which starts with `select` and still fails validation. -/
theorem validate_sql_rejects_denylisted_witness :
    (∃ keyword ∈ dangerous_keywords,
        keyword ∈ pySplit (pyLower "select 1; drop table x")) ∧
    validate_sql "select 1; drop table x" = false :=
  ⟨⟨"drop", by decide, by decide⟩,
   validate_sql_rejects_denylisted "select 1; drop table x"
     ⟨"drop", by decide, by decide⟩⟩

/-- C5.  Validation-failure atomicity: for every query `q` rejected by the
validator, `execute_sql` returns the fixed failure dictionary
`{success: false, error: "SQL query failed validation", data: null,
columns: null, row_count: 0}` immediately, with no database session ever
opened (second component `false`) nor closed (third component `false`),
for every database behaviour `db`. -/
theorem execute_sql_validation_failure (db : String → DBOutcome) (q : String)
    (h : validate_sql q = false) :
    execute_sql_traced db q =
      ({ success := false, error := some "SQL query failed validation",
         data := none, columns := none, row_count := 0 }, false, false) := by
  unfold execute_sql_traced
  simp [h, validationFailureResult]

/-- Witness for C5 at the concrete query `"drop table x"` and a database
oracle that would happily return rows. -/
theorem execute_sql_validation_failure_witness :
    validate_sql "drop table x" = false ∧
    execute_sql_traced (fun _ => DBOutcome.rows ["a"] [[("a", "1")]]) "drop table x" =
      ({ success := false, error := some "SQL query failed validation",
         data := none, columns := none, row_count := 0 }, false, false) :=
  ⟨by decide,
   execute_sql_validation_failure (fun _ => DBOutcome.rows ["a"] [[("a", "1")]])
     "drop table x" (by decide)⟩

/-- C6.  Result-shape invariant: every result dictionary produced by
`execute_sql` satisfies `success = false ⇒ data = null ∧ columns = null ∧
row_count = 0`, and `success = true ⇒ row_count = length data` (the
zero-row case included, where `data = []` and `row_count = 0`). -/
theorem execute_sql_result_shape (db : String → DBOutcome) (q : String) :
    ((execute_sql db q).success = false →
      (execute_sql db q).data = none ∧ (execute_sql db q).columns = none ∧
        (execute_sql db q).row_count = 0) ∧
    ((execute_sql db q).success = true →
      ∃ d, (execute_sql db q).data = some d ∧
        (execute_sql db q).row_count = d.length) := by
  unfold execute_sql execute_sql_traced
  by_cases hv : validate_sql q
  · simp only [hv, Bool.not_true, Bool.false_eq_true, if_false]
    cases hdb : db q with
    | rows cols data => cases data <;> simp
    | sqlError m => simp
    | otherError m => simp
  · simp [hv, validationFailureResult]

/-- Witness for C6: both implications instantiated at concrete inputs — a
rejected query (failure shape) and an accepted query returning two rows
(row count equals data length). -/
theorem execute_sql_result_shape_witness :
    ((execute_sql (fun _ => DBOutcome.rows ["a"] [[("a", "1")], [("a", "2")]])
        "drop table x").data = none ∧
     (execute_sql (fun _ => DBOutcome.rows ["a"] [[("a", "1")], [("a", "2")]])
        "drop table x").columns = none ∧
     (execute_sql (fun _ => DBOutcome.rows ["a"] [[("a", "1")], [("a", "2")]])
        "drop table x").row_count = 0) ∧
    (∃ d, (execute_sql (fun _ => DBOutcome.rows ["a"] [[("a", "1")], [("a", "2")]])
        "select a from t").data = some d ∧
      (execute_sql (fun _ => DBOutcome.rows ["a"] [[("a", "1")], [("a", "2")]])
        "select a from t").row_count = d.length) :=
  ⟨(execute_sql_result_shape (fun _ => DBOutcome.rows ["a"] [[("a", "1")], [("a", "2")]])
      "drop table x").1 (by decide),
   (execute_sql_result_shape (fun _ => DBOutcome.rows ["a"] [[("a", "1")], [("a", "2")]])
      "select a from t").2 (by decide)⟩


/-! ## Helper lemmas about one pipeline run -/

/-- A full run of the graph is the straight-line composition of the stages,
with `execute_sql` present exactly when the conditional edge out of
`generate_sql` chose `"success"`. -/
theorem runGraph_unfold (o : Collaborators) (memory_dir : String)
    (c0 : Context) (s0 : MemoryManager.Store) :
    runGraph o memory_dir c0 s0 =
      ((SQLAgentGraph.save_memory o memory_dir
          (SQLAgentGraph.format_response o (contextAtFormat o memory_dir c0 s0)) s0).1,
       (SQLAgentGraph.save_memory o memory_dir
          (SQLAgentGraph.format_response o (contextAtFormat o memory_dir c0 s0)) s0).2,
       if SQLAgentGraph.check_for_errors
            (SQLAgentGraph.generate_sql o (SQLAgentGraph.load_context o memory_dir c0 s0))
            = "error" then
         [Node.load_context, Node.generate_sql, Node.format_response, Node.save_memory]
       else
         [Node.load_context, Node.generate_sql, Node.execute_sql,
          Node.format_response, Node.save_memory]) := by
  by_cases hb : SQLAgentGraph.check_for_errors
      (SQLAgentGraph.generate_sql o (SQLAgentGraph.load_context o memory_dir c0 s0))
      = "error" <;>
    simp [runGraph, runAux, step, contextAtFormat, hb]

/-- Negating `has_errors` is emptiness of the error list. -/
theorem not_has_errors_eq_isEmpty (c : Context) :
    (!(c.has_errors)) = c.errors.isEmpty := by
  cases h : c.errors <;> simp [Context.has_errors, h]

/-- The `save_memory` stage never changes the response already formatted. -/
theorem save_memory_preserves_response (o : Collaborators) (memory_dir : String)
    (c : Context) (s : MemoryManager.Store) :
    (SQLAgentGraph.save_memory o memory_dir c s).1.response = c.response := by
  unfold SQLAgentGraph.save_memory
  cases MemoryManager.add_interaction o.now s memory_dir c.user_id
      c.question c.sql_query c.query_results c.response <;>
    simp [Context.add_error]

/-- With errors present, the `format_response` stage only sets the
templated apology citing the most recent error message. -/
theorem format_response_error_branch (o : Collaborators) (c : Context)
    (h : c.has_errors = true) :
    SQLAgentGraph.format_response o c =
      { c with response := "I\x27m sorry, but I encountered an error: " ++
          (match c.get_last_error with
           | some err => err.message
           | none => "An unknown error occurred") } := by
  simp [SQLAgentGraph.format_response, h]

/-! ## Theorems about the pipeline (claims C1, C4, C7, C8, C10) -/

/-- C1 counterexample: in a run whose only collaborator failure is the
generation chain, the final errors list is not exactly the `generate_sql`
entry — persisting the still-empty `query_results` makes the `save_memory`
stage append a second entry. -/
theorem run_generate_failure_errors_cex :
    ((runGraph oracleGenFail "memory" { user_id := "u", question := "q" } []).1.errors.map
        ErrorEntry.agent) = ["generate_sql", "save_memory"] ∧
    ((runGraph oracleGenFail "memory" { user_id := "u", question := "q" } []).1.errors.map
        ErrorEntry.agent) ≠ ["generate_sql"] := by
  constructor
  · decide
  · decide

/-- C1 (amended).  Error short-circuit of the orchestrator: in every run
whose history read succeeds and whose `generate_sql` stage appends an
error, the `execute_sql` stage never runs (the trace goes straight from
`generate_sql` to `format_response`), `query_results` stays the empty
default and `is_query_validated` stays false, and the final errors list
carries no `execute_sql` entry: it is the `generate_sql` entry followed by
the `save_memory` entry that persisting the empty results produces. -/
theorem run_generate_failure_short_circuit (o : Collaborators)
    (memory_dir uid q e : String) (s0 : MemoryManager.Store)
    (hload : o.history_read_error = none)
    (hgen : o.llm_generate q = Except.error e) :
    (runGraph o memory_dir { user_id := uid, question := q } s0).1.query_results = none ∧
    (runGraph o memory_dir { user_id := uid, question := q } s0).1.is_query_validated = false ∧
    (runGraph o memory_dir { user_id := uid, question := q } s0).2.2 =
      [Node.load_context, Node.generate_sql, Node.format_response, Node.save_memory] ∧
    (runGraph o memory_dir { user_id := uid, question := q } s0).1.errors.map
        ErrorEntry.agent = ["generate_sql", "save_memory"] := by
  simp [runGraph_unfold, contextAtFormat, SQLAgentGraph.load_context, hload,
        SQLAgentGraph.generate_sql, SQLGenerator.generate_sql, hgen,
        SQLAgentGraph.check_for_errors, Context.has_errors, Context.add_error,
        Context.update_metadata, SQLAgentGraph.format_response, Context.get_last_error,
        SQLAgentGraph.save_memory, MemoryManager.add_interaction]

/-- Witness for C1 (amended) at the concrete failing-generation run. -/
theorem run_generate_failure_short_circuit_witness :
    oracleGenFail.history_read_error = none ∧
    oracleGenFail.llm_generate "q" = Except.error "LLM unavailable" ∧
    (runGraph oracleGenFail "memory" { user_id := "u", question := "q" } []).1.query_results
      = none :=
  ⟨rfl, rfl,
   (run_generate_failure_short_circuit oracleGenFail "memory" "u" "q" "LLM unavailable" []
      rfl rfl).1⟩

/-- C10.  When `save_memory` runs on a context whose `query_results` is
still the empty default, no interaction record is persisted and the store
is left unchanged: the `results["success"]` lookup raises `KeyError`, the
stage catches it and appends an error tagged `save_memory` citing the
stringified exception. -/
theorem save_memory_empty_results_no_write (o : Collaborators) (memory_dir : String)
    (c : Context) (s : MemoryManager.Store) (h : c.query_results = none) :
    SQLAgentGraph.save_memory o memory_dir c s =
      (c.add_error "save_memory" "Error saving memory: \x27success\x27", s) := by
  simp [SQLAgentGraph.save_memory, MemoryManager.add_interaction, h]

/-- Witness for C10 at the default-initialised context and an empty store. -/
theorem save_memory_empty_results_no_write_witness :
    ({} : Context).query_results = none ∧
    SQLAgentGraph.save_memory oracleAllOk "memory" {} [] =
      (Context.add_error {} "save_memory" "Error saving memory: \x27success\x27", []) :=
  ⟨rfl, save_memory_empty_results_no_write oracleAllOk "memory" {} [] rfl⟩


/-- C4.  Exactly-once visitation: every edge of the transition function
strictly increases the pipeline rank (the graph is acyclic with no
backward edge), and every run — error paths included — visits
`format_response` exactly once and `save_memory` exactly once, with the
terminal state reached right after `save_memory` (it is the last visited
node). -/
theorem pipeline_visits_format_and_save_once (o : Collaborators)
    (memory_dir uid q : String) (s0 : MemoryManager.Store) :
    (∀ n c s n2, (step o memory_dir n c s).2.2 = some n2 → Node.rank n < Node.rank n2) ∧
    ((runGraph o memory_dir { user_id := uid, question := q } s0).2.2.count
        Node.format_response = 1 ∧
     (runGraph o memory_dir { user_id := uid, question := q } s0).2.2.count
        Node.save_memory = 1 ∧
     (runGraph o memory_dir { user_id := uid, question := q } s0).2.2.getLast? =
        some Node.save_memory) := by
  constructor
  · intro n c s n2 h
    cases n with
    | load_context =>
        simp only [step, Option.some.injEq] at h
        subst h; decide
    | generate_sql =>
        simp only [step, Option.some.injEq] at h
        split at h <;> subst h <;> decide
    | execute_sql =>
        simp only [step, Option.some.injEq] at h
        split at h <;> subst h <;> decide
    | format_response =>
        simp only [step, Option.some.injEq] at h
        subst h; decide
    | save_memory =>
        simp only [step] at h
        exact Option.noConfusion h
  · by_cases hb : SQLAgentGraph.check_for_errors
        (SQLAgentGraph.generate_sql o
          (SQLAgentGraph.load_context o memory_dir
            { user_id := uid, question := q } s0)) = "error" <;>
      simp [runGraph_unfold, hb]

/-- Witness for C4: the edge hypothesis discharged at the entry edge of a
concrete run, plus the exactly-once count on that run. -/
theorem pipeline_visits_format_and_save_once_witness :
    Node.rank Node.load_context < Node.rank Node.generate_sql ∧
    (runGraph oracleAllOk "memory" { user_id := "u", question := "q" } []).2.2.count
      Node.format_response = 1 :=
  ⟨(pipeline_visits_format_and_save_once oracleAllOk "memory" "u" "q" []).1
      Node.load_context { user_id := "u", question := "q" } [] Node.generate_sql rfl,
   ((pipeline_visits_format_and_save_once oracleAllOk "memory" "u" "q" []).2).1⟩

/-- C8 counterexample: a run in which only the history read of
`load_context` fails while the generation chain, the database and the
formatter all succeed.  The pipeline does not behave as claimed: the
generated query is written, but `execute_sql` is never visited and
`query_results` stays the empty default instead of being populated. -/
theorem run_load_failure_skips_execute_cex :
    (runGraph oracleLoadFail "memory" { user_id := "u", question := "q" } []).1.sql_query =
      "SELECT a FROM t" ∧
    (runGraph oracleLoadFail "memory" { user_id := "u", question := "q" } []).1.query_results
      = none ∧
    (runGraph oracleLoadFail "memory" { user_id := "u", question := "q" } []).2.2.contains
      Node.execute_sql = false := by
  refine ⟨by decide, by decide, by decide⟩

/-- C8 (amended).  Non-fatal context load, as the code behaves: when only
the history read fails and the generation chain succeeds, the pipeline
continues with the empty default conversation history and `generate_sql`
still runs and writes its cleaned query — but the conditional edge after
`generate_sql` observes the `load_context` error, so `execute_sql` is
skipped and `query_results` stays the empty default. -/
theorem run_load_failure_continues_without_execute (o : Collaborators)
    (memory_dir uid q e raw : String) (s0 : MemoryManager.Store)
    (hload : o.history_read_error = some e)
    (hgen : o.llm_generate q = Except.ok raw) :
    (runGraph o memory_dir { user_id := uid, question := q } s0).1.sql_query =
      clean_sql_output raw ∧
    (runGraph o memory_dir { user_id := uid, question := q } s0).1.conversation_history
      = [] ∧
    (runGraph o memory_dir { user_id := uid, question := q } s0).1.query_results = none ∧
    (runGraph o memory_dir { user_id := uid, question := q } s0).2.2 =
      [Node.load_context, Node.generate_sql, Node.format_response, Node.save_memory] := by
  simp [runGraph_unfold, contextAtFormat, SQLAgentGraph.load_context, hload,
        SQLAgentGraph.generate_sql, SQLGenerator.generate_sql, hgen,
        SQLAgentGraph.check_for_errors, Context.has_errors, Context.add_error,
        SQLAgentGraph.format_response, Context.get_last_error,
        SQLAgentGraph.save_memory, MemoryManager.add_interaction]

/-- Witness for C8 (amended) at the concrete failing-load run. -/
theorem run_load_failure_continues_without_execute_witness :
    oracleLoadFail.history_read_error = some "disk error" ∧
    oracleLoadFail.llm_generate "q" = Except.ok "SELECT a FROM t" ∧
    (runGraph oracleLoadFail "memory" { user_id := "u", question := "q" } []).1.query_results
      = none :=
  ⟨rfl, rfl,
   (run_load_failure_continues_without_execute oracleLoadFail "memory" "u" "q"
      "disk error" "SELECT a FROM t" [] rfl rfl).2.2.1⟩


/-- C7.  Error rendering contract of the top-level entry point: whenever
the context reaching `format_response` carries a non-empty errors list,
the response returned by `process_question` is the fixed-template apology
citing the most recent error message at that point; and the returned
success flag always equals emptiness of the returned (full, final) error
list. -/
theorem process_question_error_rendering (o : Collaborators) (uid q : String)
    (s0 : MemoryManager.Store) :
    ((contextAtFormat o "memory" { user_id := uid, question := q } s0).has_errors = true →
      (process_question o uid q s0).1.response =
        "I\x27m sorry, but I encountered an error: " ++
          (match (contextAtFormat o "memory" { user_id := uid, question := q } s0).get_last_error
           with
           | some err => err.message
           | none => "An unknown error occurred")) ∧
    (process_question o uid q s0).1.success = (process_question o uid q s0).1.errors.isEmpty := by
  constructor
  · intro h
    show (runGraph o "memory" { user_id := uid, question := q } s0).1.response = _
    rw [runGraph_unfold]
    show (SQLAgentGraph.save_memory o "memory"
        (SQLAgentGraph.format_response o
          (contextAtFormat o "memory" { user_id := uid, question := q } s0)) s0).1.response = _
    rw [save_memory_preserves_response, format_response_error_branch o _ h]
  · show (!(runGraph o "memory" { user_id := uid, question := q } s0).1.has_errors) = _
    exact not_has_errors_eq_isEmpty _

/-- Witness for C7 at the concrete failing-generation run: the context at
`format_response` has errors and the returned response is the rendered
apology. -/
theorem process_question_error_rendering_witness :
    (contextAtFormat oracleGenFail "memory"
        { user_id := "u", question := "q" } []).has_errors = true ∧
    (process_question oracleGenFail "u" "q" []).1.response =
      "I\x27m sorry, but I encountered an error: Error generating SQL: LLM unavailable" :=
  ⟨by decide,
   ((process_question_error_rendering oracleGenFail "u" "q" []).1 (by decide)).trans
     (by decide)⟩


/-! ## Theorems about the history keying (claim C9) -/

/-- Splitting a character list at `/` never yields the empty list of
components. -/
theorem splitSlash_ne_nil (l : List Char) : splitSlash l ≠ [] := by
  induction l with
  | nil => simp [splitSlash]
  | cons c cs ih =>
      simp only [splitSlash]
      split
      · simp
      · cases hs : splitSlash cs with
        | nil => simp
        | cons a t => simp

/-- Prepending slash-free characters extends the first component of the
split. -/
theorem splitSlash_append_no_slash (l l2 : List Char) (h : '/' ∉ l) :
    splitSlash (l ++ l2) =
      (l ++ (splitSlash l2).headI) :: (splitSlash l2).tail := by
  induction l with
  | nil =>
      cases hs : splitSlash l2 with
      | nil => exact absurd hs (splitSlash_ne_nil l2)
      | cons a t => simp [hs]
  | cons c cs ih =>
      have hc : ¬(c = '/') := by
        intro e
        exact h (e ▸ List.mem_cons_self c cs)
      have h2 : '/' ∉ cs := fun m => h (List.mem_cons_of_mem _ m)
      simp only [List.cons_append, splitSlash, if_neg hc]
      rw [show cs.append l2 = cs ++ l2 from rfl, ih h2]

/-- A slash-free character list is a single component. -/
theorem splitSlash_no_slash (l : List Char) (h : '/' ∉ l) :
    splitSlash l = [l] := by
  have h1 := splitSlash_append_no_slash l [] h
  simpa [splitSlash] using h1

/-- C9 counterexample: `get_user_memory_path` applies no filesystem-safe
transform — a user id that is an absolute path replaces the memory
directory entirely, and a user id climbing with `..` resolves outside it;
neither resulting path lies inside the memory directory. -/
theorem memory_path_escape_cex :
    MemoryManager.get_user_memory_path "memory" "/etc/passwd" = "/etc/passwd.json" ∧
    path_inside_dir "memory"
      (MemoryManager.get_user_memory_path "memory" "/etc/passwd") = false ∧
    path_inside_dir "memory"
      (MemoryManager.get_user_memory_path "memory" "../escape") = false := by
  refine ⟨by decide, by decide, by decide⟩

/-- C9 (amended).  Filesystem-safe history keying holds only for benign
ids: for every user id containing no `/` character, the document path
`memory_dir/user_id.json` lies inside the memory directory; ids containing
separators can escape it. -/
theorem memory_path_inside_for_separator_free_ids (user_id : String)
    (h : '/' ∉ user_id.data) :
    path_inside_dir "memory"
      (MemoryManager.get_user_memory_path "memory" user_id) = true := by
  have hb : pyStartsWith (user_id ++ ".json") "/" = false := by
    show listStartsWith ['/'] (user_id.data ++ ".json".data) = false
    cases hu : user_id.data with
    | nil => rfl
    | cons c cs =>
        have hc : ¬('/' = c) := by
          intro e
          exact h (hu ▸ (e ▸ List.mem_cons_self c cs))
        simp [listStartsWith, hc]
  have hjoin : MemoryManager.get_user_memory_path "memory" user_id =
      "memory" ++ "/" ++ (user_id ++ ".json") := by
    unfold MemoryManager.get_user_memory_path ospath_join
    rw [hb]
    have he1 : (("memory" : String) = "") = False := by simp
    have he2 : pyEndsWith "memory" "/" = false := by decide
    simp [he2]
  have hmem : ('/' : Char) ∉ "memory".data := by decide
  have hjs : ('/' : Char) ∉ ".json".data := by decide
  have h2 : '/' ∉ user_id.data ++ ".json".data := by
    intro hm
    rcases List.mem_append.mp hm with hm1 | hm2
    · exact h hm1
    · exact hjs hm2
  have hsplit : splitSlash (("memory" ++ "/" ++ (user_id ++ ".json")).data) =
      ["memory".data, user_id.data ++ ".json".data] := by
    rw [show (("memory" ++ "/" ++ (user_id ++ ".json")).data : List Char) =
        "memory".data ++ '/' :: (user_id.data ++ ".json".data) from rfl]
    rw [splitSlash_append_no_slash _ _ hmem]
    rw [show splitSlash ('/' :: (user_id.data ++ ".json".data)) =
        [] :: splitSlash (user_id.data ++ ".json".data) from by simp [splitSlash]]
    rw [splitSlash_no_slash _ h2]
    simp
  have hlen : (user_id.data ++ ".json".data).length = user_id.data.length + 5 := by
    rw [List.length_append]
    rfl
  have hn1 : ¬((user_id.data ++ ".json".data) = [] ∨
      (user_id.data ++ ".json".data) = ['.']) := by
    rintro (e | e) <;>
      (have hl := congrArg List.length e; rw [hlen] at hl; simp at hl)
  have hn2 : (user_id.data ++ ".json".data) ≠ ['.', '.'] := by
    intro e
    have hl := congrArg List.length e
    rw [hlen] at hl
    simp at hl
  have hres : resolvePath ("memory" ++ "/" ++ (user_id ++ ".json")) =
      some ["memory".data, user_id.data ++ ".json".data] := by
    unfold resolvePath
    rw [hsplit]
    have s1 : resolveStep (some []) "memory".data = some ["memory".data] := by decide
    have s2 : resolveStep (some ["memory".data]) (user_id.data ++ ".json".data) =
        some ["memory".data, user_id.data ++ ".json".data] := by
      simp only [resolveStep]
      rw [if_neg hn1, if_neg hn2]
      rfl
    simp only [List.foldl]
    rw [s1, s2]
  unfold path_inside_dir
  rw [hjoin, hres]
  have hstart : pyStartsWith ("memory" ++ "/" ++ (user_id ++ ".json")) "/" = false := rfl
  rw [hstart]
  rfl

/-- Witness for C9 (amended) at the concrete separator-free id
`"alice"`. -/
theorem memory_path_inside_for_separator_free_ids_witness :
    ('/' ∉ ("alice" : String).data) ∧
    path_inside_dir "memory"
      (MemoryManager.get_user_memory_path "memory" "alice") = true :=
  ⟨by decide, memory_path_inside_for_separator_free_ids "alice" (by decide)⟩


end SqlAgent
